import Mathlib

/-!
Verification of the avatar-manager response pipeline.

Shallow embedding of the Python sources of the AI-Crew repository:
`avatar_manager/main.py` (activity gate), `avatar_manager/core/generator.py`
(backend adapter, filter decision, RAG context, response-generation loop),
`avatar_manager/tools/__init__.py` (tool registry and execution) and
`avatar_manager/db.py` (vector search).  Pure functions become Lean
functions; the wall clock, the HTTP backend, the embedding capability and
the database are passed in explicitly; Python exceptions become `Except`
values or explicit abort flags.
-/

namespace AICrew

/-! ## ActivityGate — `is_avatar_active` in `avatar_manager/main.py`

A schedule is the `schedule` entry of an avatar profile: a dict from
category name to details.  Details are a dict with optional keys
`days`, `start_hour`, `end_hour`; `none` models an absent key
(`details.get("days", [])`, `details.get("start_hour", 0)`,
`details.get("end_hour", 24)`).  The current UTC time is passed as
weekday (Monday = 0 .. Sunday = 6) and hour, mirroring
`datetime.now(timezone.utc)` read at the top of the function. -/

structure ScheduleDetails where
  days : Option (List Nat)
  start_hour : Option Nat
  end_hour : Option Nat
deriving DecidableEq, Repr

/-- A Python dict, modelled as an association list with the first
binding of a key the valid one (a dict holds each key once). -/
def dictLookup {α : Type} (m : List (String × α)) (k : String) : Option α :=
  (m.find? (fun p => p.1 == k)).map (fun p => p.2)

/-- The avatar profile, restricted to the field the gate reads. -/
structure AvatarProfile where
  schedule : Option (List (String × ScheduleDetails))
deriving DecidableEq, Repr

/-- Lines 57-59 of `main.py`: `is_day and is_hour` for one category's
details at the given current weekday and hour. -/
def detailActive (det : ScheduleDetails) (day hour : Nat) : Bool :=
  (det.days.getD []).contains day
    && (decide (det.start_hour.getD 0 ≤ hour) && decide (hour < det.end_hour.getD 24))

/-- The body of the `for activity_type in activity_types` loop for one
requested category: a category absent from the schedule contributes
nothing (`if activity_type in schedule`). -/
def categoryActive (sched : List (String × ScheduleDetails)) (cat : String)
    (day hour : Nat) : Bool :=
  match dictLookup sched cat with
  | none => false
  | some det => detailActive det day hour

/-- The function `is_avatar_active(avatar_profile, activity_types)` from `main.py`.
`activity_types = none` models the Python default `None`; a falsy value
(`None` or the empty list) falls back to all schedule keys.  A falsy
schedule (absent key or empty dict) returns true immediately. -/
def is_avatar_active (profile : AvatarProfile) (activity_types : Option (List String))
    (day hour : Nat) : Bool :=
  match profile.schedule with
  | none => true
  | some sched =>
    if sched.isEmpty then true
    else
      let types : List String :=
        match activity_types with
        | none => sched.map Prod.fst
        | some l => if l.isEmpty then sched.map Prod.fst else l
      types.any (fun t => categoryActive sched t day hour)

/-- The example schedule of the spec: work on Monday-Friday, hours 9-17. -/
def workProfile : AvatarProfile :=
  { schedule := some [("work", { days := some [0, 1, 2, 3, 4],
                                 start_hour := some 9, end_hour := some 17 })] }

/-! ## Filter decision — `should_reply_to_email` in `core/generator.py`

The single zero-temperature completion is modelled by its outcome:
`.ok content` is `response_choice['message']['content']`, `.error` is any
exception raised while resolving the configuration, calling the backend or
reading the reply fields; the `except Exception` around the body catches
them all.  Python `needle in hay` on strings is contiguous-substring
containment, `str.strip` is `String.trim`, `str.upper` is
`String.toUpper`. -/

def pyContains (needle hay : String) : Bool :=
  decide (needle.toList <:+: hay.toList)

/-- Lines 117-125 of `core/generator.py`: normalize the reply and test for
the REPLY token; any exception yields `False`. -/
def should_reply_to_email (backendResult : Except String String) : Bool :=
  match backendResult with
  | .error _ => false
  | .ok content => pyContains "REPLY" (content.trim.toUpper)

/-! ## ContextRetriever — `_get_rag_context` in `core/generator.py` and
`search_rag_documents` in `db.py`

The documents table is a list of rows; `embedding <-> %s` (the pgvector
distance operator) is an abstract distance function over rational vectors
(its floating-point metric is not modelled, only the comparison and
ordering structure the SQL imposes on its values).  The `db_operation`
wrapper never raises: on any database failure it returns a falsy default,
modelled by `table = none`.  `generate_embedding` re-raises its errors,
modelled by `Except`. -/

structure RagDoc where
  content : String
  embedding : List ℚ
  metadata : Option String
deriving DecidableEq, Repr

/-- The `ORDER BY distance` comparison on the scored rows. -/
def distLE (a b : RagDoc × ℚ) : Prop := a.2 ≤ b.2

instance : DecidableRel distLE := fun a b => inferInstanceAs (Decidable (a.2 ≤ b.2))

instance : IsTotal (RagDoc × ℚ) distLE := ⟨fun a b => le_total a.2 b.2⟩

instance : IsTrans (RagDoc × ℚ) distLE := ⟨fun _ _ _ => le_trans⟩

/-- Lines 219-240 of `db.py`: score every row with the distance operator,
keep rows with `distance < threshold` when a threshold is given
(`WHERE (embedding <-> %s) < %s`), order by distance ascending and take
`LIMIT` rows. -/
def search_rag_documents (table : List RagDoc) (dist : List ℚ → List ℚ → ℚ)
    (query_embedding : List ℚ) (limit : Nat) (distance_threshold : Option ℚ) :
    List (RagDoc × ℚ) :=
  let scored := table.map (fun d => (d, dist d.embedding query_embedding))
  let filtered :=
    match distance_threshold with
    | none => scored
    | some t => scored.filter (fun p => decide (p.2 < t))
  (filtered.insertionSort distLE).take limit

/-- The collaborators `_get_rag_context` consumes: the embedding
capability, the documents table (`none` models a database failure absorbed
by `db_operation`), the distance operator and the configured threshold. -/
structure RagEnv where
  embed : String → Except String (List ℚ)
  table : Option (List RagDoc)
  dist : List ℚ → List ℚ → ℚ
  threshold : Option ℚ

/-- Lines 92-103 of `core/generator.py`.  The result records the returned
context string and whether the embedding capability and the store were
called. -/
def get_rag_context (env : RagEnv) (query : String) (limit : Nat := 3) :
    String × Bool × Bool :=
  if query = "" then ("", false, false)
  else
    match env.embed query with
    | .error _ => ("", true, false)
    | .ok qe =>
      match env.table with
      | none => ("", true, true)
      | some table =>
        let results := search_rag_documents table env.dist qe limit env.threshold
        if results.isEmpty then ("", true, true)
        else (String.intercalate "\n---\n" (results.map (fun p => p.1.content)),
              true, true)

/-- A retrieval environment whose embedding capability always fails. -/
def failingEmbedEnv : RagEnv :=
  { embed := fun _ => .error "embedding backend down",
    table := some [], dist := fun _ _ => 0, threshold := none }

/-! ## JSON values and backend reply shapes

JSON values are modelled to the depth the generator inspects them: the
tool-call loop only distinguishes objects from non-objects (`**args`
requires a mapping) and passes field values through to tool executables
opaquely, so object fields and array elements hold scalar values. -/

inductive JVal
  | s (v : String)
  | n (v : Int)
  | b (v : Bool)
  | null
deriving DecidableEq, Repr

inductive Json
  | atom (a : JVal)
  | obj (fields : List (String × JVal))
  | arr (elems : List JVal)
deriving DecidableEq, Repr

/-- The escaping `json.dumps` applies inside string literals (quote and
backslash; control characters do not occur in the modelled strings). -/
def jsonEscape (s : String) : String :=
  s.foldl (fun acc c =>
    if c = '\\' then acc ++ "\\\\"
    else if c = '"' then acc ++ "\\\"" else acc.push c) ""

def JVal.dumps : JVal → String
  | .s v => "\"" ++ jsonEscape v ++ "\""
  | .n v => toString v
  | .b true => "true"
  | .b false => "false"
  | .null => "null"

/-- Serialization `json.dumps` with its default separators. -/
def Json.dumps : Json → String
  | .atom a => a.dumps
  | .obj fields => "\x7b" ++ String.intercalate ", "
      (fields.map (fun p => "\"" ++ jsonEscape p.1 ++ "\": " ++ p.2.dumps)) ++ "\x7d"
  | .arr elems => "[" ++ String.intercalate ", " (elems.map JVal.dumps) ++ "]"

/-- One entry of an assistant reply's `tool_calls`: its `id`, its
`function.name`, and the outcome of `json.loads` on its
`function.arguments` string (`none` models a `json.JSONDecodeError`,
`some v` a string that parses to the value `v`). -/
structure ToolCall where
  id : String
  fname : String
  arguments : Option Json
deriving DecidableEq, Repr

/-- The `message` object of a chat-completion choice. -/
structure AssistantMsg where
  content : String
  tool_calls : List ToolCall
deriving DecidableEq, Repr

/-- The parsed `response.json()['choices'][0]`. -/
structure Choice where
  message : AssistantMsg
deriving DecidableEq, Repr

/-! ## ChatBackendAdapter — `_chat_completion` in `core/generator.py`,
openai_compatible engine

The HTTP server behind `requests.post` is a function from the one request
feature the adapter varies — whether the payload carries `tools` (and
`tool_choice`) — to either a transport failure (`requests.RequestException`
while posting) or a response with a status code and a parsed first
choice. -/

structure HttpResponse where
  status : Nat
  choice : Choice
deriving DecidableEq, Repr

def RemoteServer : Type := Bool → Except String HttpResponse

/-- The check `response.raise_for_status()` raises exactly on 4xx and 5xx. -/
def isHttpError (s : Nat) : Bool := decide (400 ≤ s) && decide (s < 600)

/-- Lines 58-83 of `core/generator.py`: post the payload; on a 400 with
`tools` present, strip `tools`/`tool_choice` and post once more; then
`raise_for_status` and return the first choice.  The second component
counts the HTTP posts issued. -/
def chat_completion_remote (server : RemoteServer) (withTools : Bool) :
    Except String Choice × Nat :=
  match server withTools with
  | .error e => (.error e, 1)
  | .ok r1 =>
    if r1.status == 400 && withTools then
      match server false with
      | .error e => (.error e, 2)
      | .ok r2 =>
        (if isHttpError r2.status then .error ("HTTP error " ++ toString r2.status)
         else .ok r2.choice, 2)
    else
      (if isHttpError r1.status then .error ("HTTP error " ++ toString r1.status)
       else .ok r1.choice, 1)

/-- A remote stub that rejects tool-bearing requests with HTTP 400 and
accepts the same request without tools. -/
def toolRejectingServer : RemoteServer := fun wt =>
  if wt then .ok { status := 400, choice := { message := { content := "", tool_calls := [] } } }
  else .ok { status := 200, choice := { message := { content := "hello", tool_calls := [] } } }

/-! ## ToolRegistry — `ToolManager` in `tools/__init__.py`

A loaded tool couples the declared JSON `parameters` schema (from
`get_tool_definition`) with its Python executable, abstracted by its
keyword-parameter signature and a body function; `.error e` from the body
models the executable raising an exception whose string form is `e`. -/

inductive JsonTy
  | string
  | number
  | boolean
  | integer
deriving DecidableEq, Repr

/-- The `parameters` member of a tool definition: `properties` maps each
property name to its declared type, `required` lists the mandatory
ones. -/
structure ParamSchema where
  properties : List (String × JsonTy)
  required : List String
deriving DecidableEq, Repr

structure ToolDef where
  schema : ParamSchema
  required_params : List String
  optional_params : List String
  body : List (String × JVal) → Except String Json

/-- Python dict assignment `d[k] = v`: replace the binding of `k` when one
exists (a dict binds a key once), otherwise add one at the end. -/
def dictInsert {α : Type} : List (String × α) → String → α → List (String × α)
  | [], k, v => [(k, v)]
  | p :: rest, k, v => if p.1 == k then (k, v) :: rest else p :: dictInsert rest k v

/-- Python keyword binding for `tool_func(**kwargs)`: it succeeds iff
every parameter without a default receives a value and every keyword names
a parameter; a failure raises `TypeError` before the body runs. -/
def bindOk (td : ToolDef) (kwargs : List (String × JVal)) : Bool :=
  td.required_params.all (fun p => kwargs.any (fun kv => kv.1 == p))
    && kwargs.all (fun kv => (td.required_params ++ td.optional_params).contains kv.1)

/-- The string form of the `TypeError` a failed keyword binding raises
(its exact Python wording is immaterial to every property below). -/
def bindTypeErrorMsg (name : String) : String :=
  name ++ "() got unexpected or missing keyword arguments"

/-- Lines 62-73 of `tools/__init__.py`: an unknown name gives a
synthesized error string; otherwise `tool_func(**kwargs)` runs under a
catch-all that turns any exception into an `Error:` string.  The flag
records whether the executable body was actually entered (a keyword
binding failure raises before the body runs). -/
def execute_tool (reg : List (String × ToolDef)) (tool_name : String)
    (kwargs : List (String × JVal)) : Json × Bool :=
  match dictLookup reg tool_name with
  | none => (.atom (.s ("Error: Tool \x27" ++ tool_name ++ "\x27 not found.")), false)
  | some td =>
    if bindOk td kwargs then
      match td.body kwargs with
      | .ok v => (v, true)
      | .error e => (.atom (.s ("Error: " ++ e)), true)
    else
      (.atom (.s ("Error: " ++ bindTypeErrorMsg tool_name)), false)

/-! ## ToolCallLoop — `_generate_response` in `core/generator.py` -/

/-- A dict appended to the `messages` list: the initial user prompt or the
finalize instruction, the assistant tool-call turn, a per-call result turn
tagged with its call id, or the untagged error turn appended when
arguments fail to parse. -/
inductive Msg
  | user (content : String)
  | assistant (content : String) (tool_calls : List ToolCall)
  | toolResult (tool_call_id : String) (name : String) (content : String)
  | toolError (content : String)
deriving DecidableEq, Repr

/-- Lines 156-169, one iteration of `for tool_call in tool_calls`:
a `json.JSONDecodeError` is caught and appends the untagged error turn; an
argument string parsing to an object is unpacked into `execute_tool` and
the dumped result appended, tagged by call id.  Two argument shapes make
`execute_tool(function_name, **function_args)` raise `TypeError` in
`_generate_response`'s own frame, which no handler in the loop catches —
modelled by `none` (the round aborts): a non-object JSON value (`**`
demands a mapping), and an object with a key named "tool_name" or "self"
(each collides with an already-bound parameter of the dispatcher
`ToolManager.execute_tool(self, tool_name, **kwargs)`: keyword arguments
are matched against the underlying function, whose `self` is bound
positionally through the method call, giving "got multiple values for
argument").  The second component records the executable invocation the
iteration performs, if any. -/
def processCall (reg : List (String × ToolDef)) (tc : ToolCall) :
    Option (Msg × Option (String × List (String × JVal))) :=
  match tc.arguments with
  | none => some (.toolError "Error: Invalid arguments", none)
  | some (.obj fields) =>
    if fields.any (fun kv => kv.1 == "tool_name" || kv.1 == "self") then none
    else
      let r := execute_tool reg tc.fname fields
      some (.toolResult tc.id tc.fname r.1.dumps,
            if r.2 then some (tc.fname, fields) else none)
  | some _ => none

/-- The whole `for` loop: the turns appended in order, the executable
invocations performed, and whether the loop aborted with the uncaught
`TypeError` (turns appended before the abort stay appended). -/
def runToolCalls (reg : List (String × ToolDef)) :
    List ToolCall → List Msg × List (String × List (String × JVal)) × Bool
  | [] => ([], [], false)
  | tc :: rest =>
    match processCall reg tc with
    | none => ([], [], true)
    | some (turn, inv) =>
      let r := runToolCalls reg rest
      (turn :: r.1, inv.toList ++ r.2.1, r.2.2)

/-- The backend as the loop sees it: `_chat_completion` as a function of
the message list and of whether tool schemas are attached; `.error` is any
exception it raises. -/
def GenBackend : Type := List Msg → Bool → Except String AssistantMsg

/-- Line 187 of `core/generator.py`. -/
def fallbackText : String :=
  "I\x27m sorry, but I\x27m currently unable to process your request."

/-- Line 172 of `core/generator.py`. -/
def finalInstruction : String :=
  "Based *only* on the information provided by the tool results, summarize the recent news for the user. Do not use any prior knowledge. If the tool results are empty or do not contain relevant news, say that you could not find any specific recent news."

/-- Everything observable about one `_generate_response` run: the returned
string, the log of backend calls (message list and whether tool schemas
were attached), the message list when the run left the tool round, whether
the FINALIZE call was issued, and the tool executables invoked. -/
structure GenTrace where
  result : String
  callLog : List (List Msg × Bool)
  finalMsgs : List Msg
  finalizeReached : Bool
  invoked : List (String × List (String × JVal))

/-- Lines 147-187 of `core/generator.py`: one completion; if the reply
carries tool calls, run the tool loop, append the final instruction and
complete once more without tools, returning that reply's content; any
exception inside the `try` yields the fixed fallback string. -/
def generate_response (reg : List (String × ToolDef)) (backend : GenBackend)
    (msgs0 : List Msg) (withTools : Bool) : GenTrace :=
  match backend msgs0 withTools with
  | .error _ =>
    { result := fallbackText, callLog := [(msgs0, withTools)],
      finalMsgs := msgs0, finalizeReached := false, invoked := [] }
  | .ok m =>
    if m.tool_calls.isEmpty then
      { result := m.content, callLog := [(msgs0, withTools)],
        finalMsgs := msgs0, finalizeReached := false, invoked := [] }
    else
      let msgs1 := msgs0 ++ [Msg.assistant m.content m.tool_calls]
      let r := runToolCalls reg m.tool_calls
      let msgs2 := msgs1 ++ r.1
      if r.2.2 then
        { result := fallbackText, callLog := [(msgs0, withTools)],
          finalMsgs := msgs2, finalizeReached := false, invoked := r.2.1 }
      else
        let msgs3 := msgs2 ++ [Msg.user finalInstruction]
        match backend msgs3 false with
        | .error _ =>
          { result := fallbackText, callLog := [(msgs0, withTools), (msgs3, false)],
            finalMsgs := msgs3, finalizeReached := true, invoked := r.2.1 }
        | .ok m2 =>
          { result := m2.content, callLog := [(msgs0, withTools), (msgs3, false)],
            finalMsgs := msgs3, finalizeReached := true, invoked := r.2.1 }

/-- The arguments of a requested call either fail `json.loads` or parse to
a JSON object with no "tool_name" and no "self" key (the two keys that
collide with the dispatcher's bound parameters) — the region where the
loop body handles the call locally instead of aborting the round with the
uncaught `TypeError`. -/
def argsParseSafe (tc : ToolCall) : Bool :=
  match tc.arguments with
  | none => true
  | some (.obj fields) =>
    !(fields.any (fun kv => kv.1 == "tool_name" || kv.1 == "self"))
  | some _ => false

/-- The single turn a non-aborting loop iteration appends for one call
(meaningful on the `argsParseSafe` region). -/
def perCallTurn (reg : List (String × ToolDef)) (tc : ToolCall) : Msg :=
  match tc.arguments with
  | some (.obj fields) =>
    .toolResult tc.id tc.fname (execute_tool reg tc.fname fields).1.dumps
  | _ => .toolError "Error: Invalid arguments"

/-- The executable invocation a non-aborting loop iteration performs
(meaningful on the `argsParseSafe` region). -/
def perCallInv (reg : List (String × ToolDef)) (tc : ToolCall) :
    Option (String × List (String × JVal)) :=
  match tc.arguments with
  | some (.obj fields) =>
    if (execute_tool reg tc.fname fields).2 then some (tc.fname, fields) else none
  | _ => none

/-- The message list at the FINALIZE call: initial messages, the assistant
tool-call turn, one result turn per requested call, and the synthetic
final instruction. -/
def toolRoundMsgs (reg : List (String × ToolDef)) (msgs0 : List Msg)
    (m : AssistantMsg) : List Msg :=
  msgs0 ++ [Msg.assistant m.content m.tool_calls]
    ++ m.tool_calls.map (perCallTurn reg) ++ [Msg.user finalInstruction]

/-- The declared `parameters` schema of `tools/calculator.py`. -/
def calculatorSchema : ParamSchema :=
  { properties := [("expression", JsonTy.string)], required := ["expression"] }

/-- A tool body whose returned value is irrelevant to the loop-level
properties under study (expression evaluation happens inside the Python
runtime). -/
def stubToolBody : List (String × JVal) → Except String Json :=
  fun _ => .ok (.atom (.n 0))

/-- The `calculator` entry of the loaded registry: the schema of
`get_tool_definition` and the keyword signature `calculator(expression)`,
with the body abstracted. -/
def calculatorTool (body : List (String × JVal) → Except String Json) : ToolDef :=
  { schema := calculatorSchema, required_params := ["expression"],
    optional_params := [], body := body }

def calcRegistry (body : List (String × JVal) → Except String Json) :
    List (String × ToolDef) :=
  [("calculator", calculatorTool body)]

/-- A backend stub that always answers with a tool request whose argument
string is valid JSON but not an object (it parses to the number 7). -/
def alwaysToolCallBackend : GenBackend := fun _ _ =>
  .ok { content := "",
        tool_calls := [{ id := "call_1", fname := "calculator",
                         arguments := some (.atom (.n 7)) }] }

/-- A backend stub whose tool-bearing reply carries one call with
unparsable arguments and whose tool-free reply is plain text. -/
def twoRoundBackend : GenBackend := fun _ wt =>
  if wt then
    .ok { content := "",
          tool_calls := [{ id := "c1", fname := "calculator", arguments := none }] }
  else .ok { content := "final answer", tool_calls := [] }

/-- A registry whose `calculator` body raises, plus a second well-formed
call, to witness isolation. -/
def raisingToolBody : List (String × JVal) → Except String Json :=
  fun _ => .error "division by zero"

/-- A backend whose first reply requests two calls: the first with
arguments parsing to a non-object (a JSON array), the second a well-formed
call of a known tool. -/
def cexIsolationBackend : GenBackend := fun _ _ =>
  .ok { content := "",
        tool_calls :=
          [{ id := "a", fname := "calculator", arguments := some (.arr [.n 1]) },
           { id := "b", fname := "calculator",
             arguments := some (.obj [("expression", .s "2+2")]) }] }

/-- A backend that always raises. -/
def failingBackend : GenBackend := fun _ _ => .error "connection refused"

/-- Whether a scalar value satisfies a declared JSON-schema type. -/
def tyMatches : JsonTy → JVal → Bool
  | .string, .s _ => true
  | .number, .n _ => true
  | .integer, .n _ => true
  | .boolean, .b _ => true
  | _, _ => false

/-- Validation of parsed arguments against a declared parameter schema,
following the words of the spec ("malformed arguments against the
declared schema"): every required property present and every given
property's value of its declared type (properties not declared are
permitted, as JSON Schema defaults to).  The code under `src/` contains no
such check; this definition exists only to state C8 against it. -/
def schemaAccepts (ps : ParamSchema) (fields : List (String × JVal)) : Bool :=
  ps.required.all (fun r => fields.any (fun kv => kv.1 == r))
    && fields.all (fun kv =>
        match dictLookup ps.properties kv.1 with
        | none => true
        | some ty => tyMatches ty kv.2)

/-! ## Tool loading — `ToolManager._load_tools` in `tools/__init__.py`

One candidate file of the tools directory, as the loader sees it: its
stem (which becomes the tool name), whether importing the module
succeeded, whether the module exposes a callable named after the stem and
a callable `get_tool_definition`, and the tool assembled from them when
all of that holds.  Files failing any of the checks are skipped with a
log line. -/

structure ToolModule where
  stem : String
  importOk : Bool
  hasExec : Bool
  hasGetDef : Bool
  tool : ToolDef

def loadable (f : ToolModule) : Bool := f.importOk && f.hasExec && f.hasGetDef

/-- One iteration of the scan: `self.tools[tool_name] = ...` for a
loadable file, nothing otherwise. -/
def loadStep (reg : List (String × ToolDef)) (f : ToolModule) :
    List (String × ToolDef) :=
  if loadable f then dictInsert reg f.stem f.tool else reg

/-- Lines 13-50 of `tools/__init__.py`, starting from the empty dict of
`__init__`. -/
def load_tools (files : List ToolModule) : List (String × ToolDef) :=
  files.foldl loadStep []

/-- The last loadable definition registered for a name: later files take
precedence over earlier ones with the same stem. -/
def lastLoadedDef : List ToolModule → String → Option ToolDef
  | [], _ => none
  | f :: rest, n =>
    (lastLoadedDef rest n).or
      (if loadable f && f.stem == n then some f.tool else none)

/-- Two loadable modules sharing the stem "foo" whose tools differ. -/
def dupModuleA : ToolModule :=
  { stem := "foo", importOk := true, hasExec := true, hasGetDef := true,
    tool := { schema := { properties := [], required := [] },
              required_params := ["a"], optional_params := [],
              body := stubToolBody } }

def dupModuleB : ToolModule :=
  { stem := "foo", importOk := true, hasExec := true, hasGetDef := true,
    tool := { schema := { properties := [], required := [] },
              required_params := ["b"], optional_params := [],
              body := stubToolBody } }

/-! ## Theorems -/

theorem detailActive_eq_true_iff (det : ScheduleDetails) (d h : Nat) :
    detailActive det d h = true ↔
      d ∈ det.days.getD [] ∧ det.start_hour.getD 0 ≤ h ∧ h < det.end_hour.getD 24 := by
  simp [detailActive, List.contains, List.elem_iff, and_assoc]

theorem categoryActive_eq_true_iff (sched : List (String × ScheduleDetails))
    (c : String) (d h : Nat) :
    categoryActive sched c d h = true ↔
      ∃ det, dictLookup sched c = some det ∧
        d ∈ det.days.getD [] ∧ det.start_hour.getD 0 ≤ h ∧ h < det.end_hour.getD 24 := by
  rcases hl : dictLookup sched c with _ | det <;>
    simp [categoryActive, hl, detailActive_eq_true_iff]

/-- C4: the activity gate returns true when the profile has no schedule
(absent or empty); with an empty requested-category list it evaluates over
all schedule keys; otherwise it is true iff some requested category has the
current UTC weekday in its day set and start_hour ≤ h < end_hour; on the
work Mon-Fri 9-17 schedule it is true Wed 10:00, false Sat 10:00 and
false Wed 20:00 (all UTC). -/
theorem is_avatar_active_spec :
    (∀ (p : AvatarProfile) (t : Option (List String)) (d h : Nat),
        p.schedule = none ∨ p.schedule = some [] → is_avatar_active p t d h = true)
  ∧ (∀ (p : AvatarProfile) (sched : List (String × ScheduleDetails)) (d h : Nat),
        p.schedule = some sched → sched ≠ [] →
        is_avatar_active p (some []) d h
          = (sched.map Prod.fst).any (fun t => categoryActive sched t d h))
  ∧ (∀ (p : AvatarProfile) (sched : List (String × ScheduleDetails))
        (cats : List String) (d h : Nat),
        p.schedule = some sched → sched ≠ [] → cats ≠ [] →
        (is_avatar_active p (some cats) d h = true ↔
          ∃ c ∈ cats, ∃ det, dictLookup sched c = some det ∧
            d ∈ det.days.getD [] ∧ det.start_hour.getD 0 ≤ h ∧ h < det.end_hour.getD 24))
  ∧ is_avatar_active workProfile (some ["work"]) 2 10 = true
  ∧ is_avatar_active workProfile (some ["work"]) 5 10 = false
  ∧ is_avatar_active workProfile (some ["work"]) 2 20 = false := by
  refine ⟨?_, ?_, ?_, by decide, by decide, by decide⟩
  · rintro p t d h (hp | hp) <;> simp [is_avatar_active, hp]
  · intro p sched d h hp hs
    simp [is_avatar_active, hp, List.isEmpty_iff, hs]
  · intro p sched cats d h hp hs hc
    simp only [is_avatar_active, hp, List.isEmpty_iff, hs, if_false, hc,
      List.any_eq_true, categoryActive_eq_true_iff]

/-- Witness for C4 at a concrete schedule-less profile and time. -/
theorem is_avatar_active_spec_witness :
    is_avatar_active { schedule := none } (some ["work"]) 3 12 = true :=
  is_avatar_active_spec.1 { schedule := none } (some ["work"]) 3 12 (Or.inl rfl)

/-- C10: with a non-empty schedule, requesting only categories absent from
the schedule yields false; within a present category a missing day set is
treated as empty (never day-active), a missing start_hour as 0 and a
missing end_hour as 24. -/
theorem is_avatar_active_absent_category_and_defaults :
    (∀ (p : AvatarProfile) (sched : List (String × ScheduleDetails))
        (cats : List String) (d h : Nat),
        p.schedule = some sched → sched ≠ [] → cats ≠ [] →
        (∀ c ∈ cats, dictLookup sched c = none) →
        is_avatar_active p (some cats) d h = false)
  ∧ (∀ (det : ScheduleDetails) (d h : Nat), det.days = none →
        detailActive det d h = false)
  ∧ (∀ (det : ScheduleDetails) (d h : Nat), det.start_hour = none →
        detailActive det d h = detailActive { det with start_hour := some 0 } d h)
  ∧ (∀ (det : ScheduleDetails) (d h : Nat), det.end_hour = none →
        detailActive det d h = detailActive { det with end_hour := some 24 } d h) := by
  refine ⟨?_, ?_, ?_, ?_⟩
  · intro p sched cats d h hp hs hc habs
    simp only [is_avatar_active, hp, List.isEmpty_iff, hs, if_false, hc,
      List.any_eq_false]
    intro c hcmem
    simp [categoryActive, habs c hcmem]
  · intro det d h hd; simp [detailActive, hd]
  · intro det d h hd; simp [detailActive, hd]
  · intro det d h hd; simp [detailActive, hd]

/-- Witness for C10: the work profile, asked for the absent category
"social", is inactive Wednesday 10:00 UTC. -/
theorem is_avatar_active_absent_category_and_defaults_witness :
    is_avatar_active workProfile (some ["social"]) 2 10 = false :=
  is_avatar_active_absent_category_and_defaults.1 workProfile _ ["social"] 2 10
    rfl (by decide) (by decide) (by decide)

/-- C5: the filter returns true iff the stripped, upper-cased backend
output contains the token REPLY, and any backend failure yields false
(fail-closed, never raises). -/
theorem should_reply_to_email_spec :
    (∀ s : String, should_reply_to_email (.ok s) = true ↔
        "REPLY".toList <:+: (s.trim.toUpper).toList)
  ∧ (∀ e : String, should_reply_to_email (.error e) = false) := by
  constructor
  · intro s
    simp [should_reply_to_email, pyContains]
  · intro e
    rfl

/-- C6: the empty query returns the empty context without calling the
embedding capability or the store; an embedding failure and a store
failure each degrade to the empty context (nothing ever raises); with a
threshold configured every returned chunk has distance strictly below it;
and results are ordered nearest first. -/
theorem get_rag_context_spec :
    (∀ (env : RagEnv) (limit : Nat), get_rag_context env "" limit = ("", false, false))
  ∧ (∀ (env : RagEnv) (q : String) (limit : Nat) (e : String),
        env.embed q = .error e → (get_rag_context env q limit).1 = "")
  ∧ (∀ (env : RagEnv) (q : String) (limit : Nat),
        env.table = none → (get_rag_context env q limit).1 = "")
  ∧ (∀ (table : List RagDoc) (dist : List ℚ → List ℚ → ℚ) (qe : List ℚ)
        (limit : Nat) (t : ℚ) (p : RagDoc × ℚ),
        p ∈ search_rag_documents table dist qe limit (some t) → p.2 < t)
  ∧ (∀ (table : List RagDoc) (dist : List ℚ → List ℚ → ℚ) (qe : List ℚ)
        (limit : Nat) (th : Option ℚ),
        (search_rag_documents table dist qe limit th).Sorted distLE) := by
  refine ⟨?_, ?_, ?_, ?_, ?_⟩
  · intro env limit
    simp [get_rag_context]
  · intro env q limit e hemb
    by_cases hq : q = "" <;> simp [get_rag_context, hq, hemb]
  · intro env q limit htab
    by_cases hq : q = ""
    · simp [get_rag_context, hq]
    · cases hemb : env.embed q <;> simp [get_rag_context, hq, htab, hemb]
  · intro table dist qe limit t p hp
    have h1 : p ∈ ((table.map (fun d => (d, dist d.embedding qe))).filter
        (fun p => decide (p.2 < t))).insertionSort distLE :=
      List.take_subset limit _ hp
    have h2 := (List.perm_insertionSort distLE _).mem_iff.mp h1
    have := (List.mem_filter.mp h2).2
    simpa using this
  · intro table dist qe limit th
    exact (List.sorted_insertionSort distLE _).sublist (List.take_sublist limit _)

/-- Witness for C6: a throwing embedding capability yields the empty
context on a non-empty query. -/
theorem get_rag_context_spec_witness :
    (get_rag_context failingEmbedEnv "what is new" 3).1 = "" :=
  get_rag_context_spec.2.1 failingEmbedEnv "what is new" 3
    "embedding backend down" rfl

/-- C3: a tool-bearing request rejected with a request-validation client
error (HTTP 400) is retried exactly once without tool schemas, and the
accepted retried response is returned without raising; a transport failure
or any other error status on a tool-bearing request propagates after a
single post; at most two posts ever happen; and a 400 on a tool-free
request is a hard error, never retried. -/
theorem chat_completion_remote_spec :
    (∀ (server : RemoteServer) (r1 r2 : HttpResponse),
        server true = .ok r1 → r1.status = 400 →
        server false = .ok r2 → isHttpError r2.status = false →
        chat_completion_remote server true = (.ok r2.choice, 2))
  ∧ (∀ (server : RemoteServer) (r1 : HttpResponse),
        server true = .ok r1 → isHttpError r1.status = true → r1.status ≠ 400 →
        ∃ e, chat_completion_remote server true = (.error e, 1))
  ∧ (∀ (server : RemoteServer) (e : String),
        server true = .error e → chat_completion_remote server true = (.error e, 1))
  ∧ (∀ (server : RemoteServer) (wt : Bool), (chat_completion_remote server wt).2 ≤ 2)
  ∧ (∀ (server : RemoteServer) (r1 : HttpResponse),
        server false = .ok r1 → r1.status = 400 →
        ∃ e, chat_completion_remote server false = (.error e, 1)) := by
  refine ⟨?_, ?_, ?_, ?_, ?_⟩
  · intro server r1 r2 h1 hst h2 hok
    simp [chat_completion_remote, h1, hst, h2, hok]
  · intro server r1 h1 herr hne
    refine ⟨"HTTP error " ++ toString r1.status, ?_⟩
    have : (r1.status == 400) = false := by simpa using hne
    simp [chat_completion_remote, h1, this, herr]
  · intro server e h1
    simp [chat_completion_remote, h1]
  · intro server wt
    unfold chat_completion_remote
    rcases server wt with e | r1
    · simp
    · dsimp only
      split
      · rcases server false with e | r2 <;> simp
      · simp
  · intro server r1 h1 hst
    refine ⟨"HTTP error " ++ toString r1.status, ?_⟩
    simp [chat_completion_remote, h1, hst, isHttpError]

/-- Witness for C3: the stub that only accepts tool-free requests makes
`complete()` with tools return the retried response after two posts. -/
theorem chat_completion_remote_spec_witness :
    chat_completion_remote toolRejectingServer true
      = (.ok { message := { content := "hello", tool_calls := [] } }, 2) :=
  chat_completion_remote_spec.1 toolRejectingServer
    { status := 400, choice := { message := { content := "", tool_calls := [] } } }
    { status := 200, choice := { message := { content := "hello", tool_calls := [] } } }
    rfl rfl rfl rfl

theorem processCall_safe (reg : List (String × ToolDef)) (tc : ToolCall)
    (h : argsParseSafe tc = true) :
    processCall reg tc = some (perCallTurn reg tc, perCallInv reg tc) := by
  rcases tc with ⟨i, f, _ | (a | fields | elems)⟩ <;>
    simp_all [argsParseSafe, processCall, perCallTurn, perCallInv]
  exact h

theorem runToolCalls_safe (reg : List (String × ToolDef)) (tcs : List ToolCall)
    (h : ∀ tc ∈ tcs, argsParseSafe tc = true) :
    runToolCalls reg tcs
      = (tcs.map (perCallTurn reg), tcs.filterMap (perCallInv reg), false) := by
  induction tcs with
  | nil => rfl
  | cons tc rest ih =>
    have hsafe := h tc (by simp)
    have hrest : ∀ tc ∈ rest, argsParseSafe tc = true := fun x hx => h x (by simp [hx])
    simp only [runToolCalls, processCall_safe reg tc hsafe, ih hrest,
      List.map_cons, List.filterMap_cons]
    rcases hv : perCallInv reg tc with _ | v <;> simp [hv]

theorem generate_response_toolRound_ok (reg : List (String × ToolDef))
    (backend : GenBackend) (msgs0 : List Msg) (wt : Bool) (m m2 : AssistantMsg)
    (h1 : backend msgs0 wt = .ok m) (h2 : m.tool_calls ≠ [])
    (h3 : ∀ tc ∈ m.tool_calls, argsParseSafe tc = true)
    (h4 : backend (toolRoundMsgs reg msgs0 m) false = .ok m2) :
    generate_response reg backend msgs0 wt =
      { result := m2.content,
        callLog := [(msgs0, wt), (toolRoundMsgs reg msgs0 m, false)],
        finalMsgs := toolRoundMsgs reg msgs0 m, finalizeReached := true,
        invoked := m.tool_calls.filterMap (perCallInv reg) } := by
  have hne : m.tool_calls.isEmpty = false := by
    simpa [List.isEmpty_iff] using h2
  simp only [generate_response, h1, hne, Bool.false_eq_true, if_false,
    runToolCalls_safe reg m.tool_calls h3]
  have hmsgs : msgs0 ++ [Msg.assistant m.content m.tool_calls]
      ++ m.tool_calls.map (perCallTurn reg) ++ [Msg.user finalInstruction]
      = toolRoundMsgs reg msgs0 m := rfl
  simp only [hmsgs, h4]

theorem generate_response_toolRound_err (reg : List (String × ToolDef))
    (backend : GenBackend) (msgs0 : List Msg) (wt : Bool) (m : AssistantMsg)
    (e : String)
    (h1 : backend msgs0 wt = .ok m) (h2 : m.tool_calls ≠ [])
    (h3 : ∀ tc ∈ m.tool_calls, argsParseSafe tc = true)
    (h4 : backend (toolRoundMsgs reg msgs0 m) false = .error e) :
    generate_response reg backend msgs0 wt =
      { result := fallbackText,
        callLog := [(msgs0, wt), (toolRoundMsgs reg msgs0 m, false)],
        finalMsgs := toolRoundMsgs reg msgs0 m, finalizeReached := true,
        invoked := m.tool_calls.filterMap (perCallInv reg) } := by
  have hne : m.tool_calls.isEmpty = false := by
    simpa [List.isEmpty_iff] using h2
  simp only [generate_response, h1, hne, Bool.false_eq_true, if_false,
    runToolCalls_safe reg m.tool_calls h3]
  have hmsgs : msgs0 ++ [Msg.assistant m.content m.tool_calls]
      ++ m.tool_calls.map (perCallTurn reg) ++ [Msg.user finalInstruction]
      = toolRoundMsgs reg msgs0 m := rfl
  simp only [hmsgs, h4]

/-- C1 as amended: when the first reply carries tool calls and every
requested call's argument string either fails to parse or parses to a JSON
object with no "tool_name" and no "self" key (a key colliding with the
dispatcher's bound parameters aborts the round into the fallback after a
single trip), the loop makes exactly two backend round trips — the second
with no tool schemas attached — and returns the second reply's text
verbatim whatever that reply contains; and in every run whatsoever at most
two backend calls are made. -/
theorem generate_response_two_round_trips :
    (∀ (reg : List (String × ToolDef)) (backend : GenBackend) (msgs0 : List Msg)
        (wt : Bool) (m m2 : AssistantMsg),
        backend msgs0 wt = .ok m → m.tool_calls ≠ [] →
        (∀ tc ∈ m.tool_calls, argsParseSafe tc = true) →
        backend (toolRoundMsgs reg msgs0 m) false = .ok m2 →
        (generate_response reg backend msgs0 wt).callLog
            = [(msgs0, wt), (toolRoundMsgs reg msgs0 m, false)]
          ∧ (generate_response reg backend msgs0 wt).result = m2.content)
  ∧ (∀ (reg : List (String × ToolDef)) (backend : GenBackend) (msgs0 : List Msg)
        (wt : Bool), (generate_response reg backend msgs0 wt).callLog.length ≤ 2) := by
  constructor
  · intro reg backend msgs0 wt m m2 h1 h2 h3 h4
    rw [generate_response_toolRound_ok reg backend msgs0 wt m m2 h1 h2 h3 h4]
    exact ⟨rfl, rfl⟩
  · intro reg backend msgs0 wt
    unfold generate_response
    rcases backend msgs0 wt with e | m
    · simp
    · dsimp only
      split
      · simp
      · split
        · simp
        · rcases backend _ false with e | m2 <;> simp

/-- Witness for C1 (amended): the stub whose tool round succeeds returns
the second reply's text after the two logged round trips. -/
theorem generate_response_two_round_trips_witness :
    (generate_response (calcRegistry stubToolBody) twoRoundBackend
        [Msg.user "q"] true).result = "final answer" :=
  (generate_response_two_round_trips.1 (calcRegistry stubToolBody) twoRoundBackend
    [Msg.user "q"] true
    { content := "",
      tool_calls := [{ id := "c1", fname := "calculator", arguments := none }] }
    { content := "final answer", tool_calls := [] }
    rfl (by decide) (by decide) rfl).2

/-- Counterexample to C1 as stated: a backend that always returns tool
requests, with an argument string that parses to a non-object; the run
makes a single round trip and returns the fallback string, not a second
reply's text. -/
theorem generate_response_two_round_trips_cex :
    alwaysToolCallBackend [Msg.user "hi"] true
      = .ok { content := "",
              tool_calls := [{ id := "call_1", fname := "calculator",
                               arguments := some (.atom (.n 7)) }] }
  ∧ (generate_response (calcRegistry stubToolBody) alwaysToolCallBackend
        [Msg.user "hi"] true).callLog.length = 1
  ∧ (generate_response (calcRegistry stubToolBody) alwaysToolCallBackend
        [Msg.user "hi"] true).result = fallbackText :=
  ⟨rfl, rfl, rfl⟩

/-- C2 as amended: when every requested call's argument string fails to
parse or parses to an object with no "tool_name" and no "self" key (the
colliding keys that abort the round uncaught), the round appends exactly
one result turn per call in order, invocations of sibling calls are
independent and the loop never aborts; an unknown tool name yields a
synthesized error-string result without invocation; an executable that
raises yields an error-string result carrying the exception text; and the
FINALIZE call is still reached. -/
theorem generate_response_tool_round_isolated :
    (∀ (reg : List (String × ToolDef)) (tcs : List ToolCall),
        (∀ tc ∈ tcs, argsParseSafe tc = true) →
        runToolCalls reg tcs
          = (tcs.map (perCallTurn reg), tcs.filterMap (perCallInv reg), false))
  ∧ (∀ (reg : List (String × ToolDef)) (tc : ToolCall)
        (fields : List (String × JVal)),
        tc.arguments = some (.obj fields) → argsParseSafe tc = true →
        dictLookup reg tc.fname = none →
        perCallTurn reg tc = .toolResult tc.id tc.fname
            (Json.dumps (.atom (.s ("Error: Tool \x27" ++ tc.fname ++ "\x27 not found."))))
          ∧ perCallInv reg tc = none)
  ∧ (∀ (reg : List (String × ToolDef)) (tc : ToolCall)
        (fields : List (String × JVal)) (td : ToolDef) (e : String),
        tc.arguments = some (.obj fields) → argsParseSafe tc = true →
        dictLookup reg tc.fname = some td →
        bindOk td fields = true → td.body fields = .error e →
        perCallTurn reg tc = .toolResult tc.id tc.fname
            (Json.dumps (.atom (.s ("Error: " ++ e))))
          ∧ perCallInv reg tc = some (tc.fname, fields))
  ∧ (∀ (reg : List (String × ToolDef)) (backend : GenBackend) (msgs0 : List Msg)
        (wt : Bool) (m : AssistantMsg),
        backend msgs0 wt = .ok m → m.tool_calls ≠ [] →
        (∀ tc ∈ m.tool_calls, argsParseSafe tc = true) →
        (generate_response reg backend msgs0 wt).finalizeReached = true) := by
  refine ⟨runToolCalls_safe, ?_, ?_, ?_⟩
  · intro reg tc fields hargs _ hlook
    simp [perCallTurn, perCallInv, hargs, execute_tool, hlook]
  · intro reg tc fields td e hargs _ hlook hbind hbody
    simp [perCallTurn, perCallInv, hargs, execute_tool, hlook, hbind, hbody]
  · intro reg backend msgs0 wt m h1 h2 h3
    rcases h4 : backend (toolRoundMsgs reg msgs0 m) false with e | m2
    · rw [generate_response_toolRound_err reg backend msgs0 wt m e h1 h2 h3 h4]
    · rw [generate_response_toolRound_ok reg backend msgs0 wt m m2 h1 h2 h3 h4]

/-- Witness for C2 (amended): a raising executable produces an
error-string turn carrying the exception text, without stopping the
loop. -/
theorem generate_response_tool_round_isolated_witness :
    perCallTurn (calcRegistry raisingToolBody)
        { id := "w1", fname := "calculator",
          arguments := some (.obj [("expression", JVal.s "1/0")]) }
      = .toolResult "w1" "calculator"
          (Json.dumps (.atom (.s ("Error: " ++ "division by zero")))) :=
  (generate_response_tool_round_isolated.2.2.1 (calcRegistry raisingToolBody)
    { id := "w1", fname := "calculator",
      arguments := some (.obj [("expression", JVal.s "1/0")]) }
    [("expression", JVal.s "1/0")] (calculatorTool raisingToolBody)
    "division by zero" rfl (by decide) rfl (by decide) rfl).1

/-- Counterexample to C2 as stated: with the first call's arguments
parsing to a non-object, the round aborts — the sibling call is never
invoked, no result turn is appended for it, FINALIZE is never reached and
the fallback string is returned. -/
theorem generate_response_tool_round_isolated_cex :
    (generate_response (calcRegistry stubToolBody) cexIsolationBackend
        [Msg.user "hi"] true).finalizeReached = false
  ∧ (generate_response (calcRegistry stubToolBody) cexIsolationBackend
        [Msg.user "hi"] true).invoked = []
  ∧ (generate_response (calcRegistry stubToolBody) cexIsolationBackend
        [Msg.user "hi"] true).result = fallbackText
  ∧ (generate_response (calcRegistry stubToolBody) cexIsolationBackend
        [Msg.user "hi"] true).finalMsgs
      = [Msg.user "hi",
         Msg.assistant ""
           [{ id := "a", fname := "calculator", arguments := some (.arr [.n 1]) },
            { id := "b", fname := "calculator",
              arguments := some (.obj [("expression", .s "2+2")]) }]] :=
  ⟨rfl, rfl, rfl, rfl⟩

/-- C7: a backend failure on the initial completion, and a backend failure
on the finalize call of a tool round, each make the generator return the
fixed fallback string instead of propagating. -/
theorem generate_response_fallback_on_backend_error :
    (∀ (reg : List (String × ToolDef)) (backend : GenBackend) (msgs0 : List Msg)
        (wt : Bool) (e : String),
        backend msgs0 wt = .error e →
        (generate_response reg backend msgs0 wt).result = fallbackText)
  ∧ (∀ (reg : List (String × ToolDef)) (backend : GenBackend) (msgs0 : List Msg)
        (wt : Bool) (m : AssistantMsg) (e : String),
        backend msgs0 wt = .ok m → m.tool_calls ≠ [] →
        (∀ tc ∈ m.tool_calls, argsParseSafe tc = true) →
        backend (toolRoundMsgs reg msgs0 m) false = .error e →
        (generate_response reg backend msgs0 wt).result = fallbackText) := by
  constructor
  · intro reg backend msgs0 wt e h1
    simp [generate_response, h1]
  · intro reg backend msgs0 wt m e h1 h2 h3 h4
    rw [generate_response_toolRound_err reg backend msgs0 wt m e h1 h2 h3 h4]

/-- Witness for C7: the raising backend yields the fallback string. -/
theorem generate_response_fallback_on_backend_error_witness :
    (generate_response [] failingBackend [Msg.user "x"] true).result
      = fallbackText :=
  generate_response_fallback_on_backend_error.1 [] failingBackend [Msg.user "x"]
    true "connection refused" rfl

/-- C8 as amended: arguments are only JSON-parsed, never validated against
the declared schema.  A call whose arguments fail to parse gets a
synthesized error turn without invocation; a call whose arguments parse to
an object with no dispatcher-colliding key ("tool_name" or "self" aborts
the round uncaught instead) is dispatched regardless of schema validity —
whenever the keyword names bind to the tool executable's own signature the
executable is invoked, and a binding failure against that signature is
caught into an error-string result without the body running. -/
theorem generate_response_args_not_schema_validated :
    (∀ (reg : List (String × ToolDef)) (tc : ToolCall),
        tc.arguments = none →
        perCallTurn reg tc = .toolError "Error: Invalid arguments"
          ∧ perCallInv reg tc = none)
  ∧ (∀ (reg : List (String × ToolDef)) (tc : ToolCall)
        (fields : List (String × JVal)) (td : ToolDef),
        tc.arguments = some (.obj fields) → argsParseSafe tc = true →
        dictLookup reg tc.fname = some td →
        bindOk td fields = true →
        perCallInv reg tc = some (tc.fname, fields))
  ∧ (∀ (reg : List (String × ToolDef)) (tc : ToolCall)
        (fields : List (String × JVal)) (td : ToolDef),
        tc.arguments = some (.obj fields) → argsParseSafe tc = true →
        dictLookup reg tc.fname = some td →
        bindOk td fields = false →
        perCallTurn reg tc = .toolResult tc.id tc.fname
            (Json.dumps (.atom (.s ("Error: " ++ bindTypeErrorMsg tc.fname))))
          ∧ perCallInv reg tc = none) := by
  refine ⟨?_, ?_, ?_⟩
  · intro reg tc hargs
    simp [perCallTurn, perCallInv, hargs]
  · intro reg tc fields td hargs _ hlook hbind
    cases hbody : td.body fields <;>
      simp [perCallInv, hargs, execute_tool, hlook, hbind, hbody]
  · intro reg tc fields td hargs _ hlook hbind
    simp [perCallTurn, perCallInv, hargs, execute_tool, hlook, hbind]

/-- Witness for C8 (amended): a call with schema-conforming arguments that
bind is invoked. -/
theorem generate_response_args_not_schema_validated_witness :
    perCallInv (calcRegistry stubToolBody)
        { id := "w8", fname := "calculator",
          arguments := some (.obj [("expression", JVal.s "2*3")]) }
      = some ("calculator", [("expression", JVal.s "2*3")]) :=
  generate_response_args_not_schema_validated.2.1 (calcRegistry stubToolBody)
    { id := "w8", fname := "calculator",
      arguments := some (.obj [("expression", JVal.s "2*3")]) }
    [("expression", JVal.s "2*3")] (calculatorTool stubToolBody)
    rfl (by decide) rfl (by decide)

/-- Counterexample to C8 as stated: arguments malformed against the
declared schema of `calculator` (its `expression` must be a string, the
call passes the number 5), yet the loop invokes the executable instead of
synthesizing an error without invocation. -/
theorem generate_response_args_not_schema_validated_cex :
    schemaAccepts calculatorSchema [("expression", JVal.n 5)] = false
  ∧ (runToolCalls (calcRegistry stubToolBody)
        [{ id := "call8", fname := "calculator",
           arguments := some (.obj [("expression", JVal.n 5)]) }]).2.1
      = [("calculator", [("expression", JVal.n 5)])] :=
  ⟨rfl, rfl⟩

theorem dictLookup_cons {α : Type} (p : String × α) (rest : List (String × α))
    (n : String) :
    dictLookup (p :: rest) n = if p.1 == n then some p.2 else dictLookup rest n := by
  simp only [dictLookup, List.find?_cons]
  cases h : (p.1 == n) <;> simp

theorem dictLookup_dictInsert {α : Type} (m : List (String × α)) (k : String)
    (v : α) (n : String) :
    dictLookup (dictInsert m k v) n = if n = k then some v else dictLookup m n := by
  induction m with
  | nil =>
    rw [dictInsert, dictLookup_cons]
    by_cases h : n = k
    · simp [h]
    · have hb : (k == n) = false := beq_eq_false_iff_ne.mpr (Ne.symm h)
      simp [h, hb]
  | cons p rest ih =>
    by_cases hpk : p.1 = k
    · simp only [dictInsert, hpk, beq_self_eq_true, if_true]
      rw [dictLookup_cons, dictLookup_cons]
      by_cases hn : n = k
      · simp [hn]
      · have hb : (k == n) = false := beq_eq_false_iff_ne.mpr (Ne.symm hn)
        have hb2 : (p.1 == n) = false := by rw [hpk]; exact hb
        simp [hn, hb, hb2]
    · have hb : (p.1 == k) = false := beq_eq_false_iff_ne.mpr hpk
      simp only [dictInsert, hb, Bool.false_eq_true, if_false]
      rw [dictLookup_cons, dictLookup_cons, ih]
      by_cases hpn : p.1 = n
      · have hnk : ¬n = k := fun h => hpk (hpn.trans h)
        simp [hpn, hnk]
      · have hb2 : (p.1 == n) = false := beq_eq_false_iff_ne.mpr hpn
        simp [hb2]

theorem mem_dictInsert_fst {α : Type} (m : List (String × α)) (k : String) (v : α)
    (a : String) :
    a ∈ (dictInsert m k v).map Prod.fst ↔ a = k ∨ a ∈ m.map Prod.fst := by
  induction m with
  | nil => simp [dictInsert]
  | cons p rest ih =>
    by_cases hpk : p.1 = k
    · simp only [dictInsert, hpk, beq_self_eq_true, if_true]
      simp only [List.map_cons, List.mem_cons, ← hpk]
      tauto
    · have hb : (p.1 == k) = false := beq_eq_false_iff_ne.mpr hpk
      simp only [dictInsert, hb, Bool.false_eq_true, if_false, List.map_cons,
        List.mem_cons, ih]
      tauto

theorem nodup_dictInsert_fst {α : Type} (m : List (String × α)) (k : String)
    (v : α) (h : (m.map Prod.fst).Nodup) :
    ((dictInsert m k v).map Prod.fst).Nodup := by
  induction m with
  | nil => simp [dictInsert]
  | cons p rest ih =>
    simp only [List.map_cons, List.nodup_cons] at h
    by_cases hpk : p.1 = k
    · simp only [dictInsert, hpk, beq_self_eq_true, if_true, List.map_cons,
        List.nodup_cons]
      exact ⟨hpk ▸ h.1, h.2⟩
    · have hb : (p.1 == k) = false := by simp [hpk]
      simp only [dictInsert, hb, Bool.false_eq_true, if_false, List.map_cons,
        List.nodup_cons]
      refine ⟨fun hmem => ?_, ih h.2⟩
      rcases (mem_dictInsert_fst rest k v p.1).mp hmem with h1 | h1
      · exact hpk h1
      · exact h.1 h1

theorem load_tools_lookup_go (files : List ToolModule) :
    ∀ (acc : List (String × ToolDef)) (n : String),
      dictLookup (files.foldl loadStep acc) n
        = (lastLoadedDef files n).or (dictLookup acc n) := by
  induction files with
  | nil => intro acc n; simp [lastLoadedDef, Option.or]
  | cons f rest ih =>
    intro acc n
    simp only [List.foldl_cons, ih, lastLoadedDef]
    rcases hrest : lastLoadedDef rest n with _ | d
    · by_cases hl : loadable f
      · by_cases hs : f.stem = n
        · simp [Option.or, loadStep, hl, hs, dictLookup_dictInsert]
        · have hb : (f.stem == n) = false := beq_eq_false_iff_ne.mpr hs
          have hnk : ¬n = f.stem := fun h => hs h.symm
          simp [Option.or, loadStep, hl, hb, hnk, dictLookup_dictInsert]
      · simp [Option.or, loadStep, hl]
    · simp [Option.or]

theorem load_tools_nodup_go (files : List ToolModule) :
    ∀ acc : List (String × ToolDef), (acc.map Prod.fst).Nodup →
      ((files.foldl loadStep acc).map Prod.fst).Nodup := by
  induction files with
  | nil => intro acc h; simpa using h
  | cons f rest ih =>
    intro acc h
    simp only [List.foldl_cons]
    refine ih (loadStep acc f) ?_
    unfold loadStep
    split
    · exact nodup_dictInsert_fst acc f.stem f.tool h
    · exact h

/-- C9 as amended: names in the loaded registry are always unique, but
duplicate registration is silently absorbed by dict assignment — after
loading, a name maps to the LAST loadable definition registered for it,
and loading never fails on a duplicate.  (In an actual load duplicate
stems cannot arise, the stems being distinct file names of one
directory.) -/
theorem load_tools_unique_names_last_wins :
    (∀ files : List ToolModule, ((load_tools files).map Prod.fst).Nodup)
  ∧ (∀ (files : List ToolModule) (n : String),
        dictLookup (load_tools files) n = lastLoadedDef files n) := by
  constructor
  · intro files
    exact load_tools_nodup_go files [] (by simp)
  · intro files n
    rw [load_tools, load_tools_lookup_go files [] n]
    rcases lastLoadedDef files n with _ | d <;> simp [Option.or, dictLookup]

/-- Counterexample to C9 as stated: registering a second tool under an
already-registered name does not fail — loading completes and the name
maps to the second definition, not the first (the two differ in their
parameter lists). -/
theorem load_tools_overwrites_cex :
    ((dictLookup (load_tools [dupModuleA, dupModuleB]) "foo").map
        (fun td => td.required_params)) = some ["b"]
  ∧ dupModuleA.tool.required_params = ["a"] :=
  ⟨rfl, rfl⟩

end AICrew

